import Mathlib

/-!
Verification of the polly-prediction-partners backend.

Shallow embedding of the parts of the backend that the checked properties
talk about:

* `market_cache.py` — the `MarketCache` with its write operations
  `upsert_from_ticker`, `upsert_from_discovery`, `apply_orderbook_delta`,
  `append_trade`, `update_status` and the `_notify` signal.
* `trading/execution_engine.py` — `_validate`, the idempotency guard in
  `execute`, and the retry loop `_submit_with_retry`.
* `trading/permission_layer.py` — the three-gate `submit`.
* `kalshi/rest_client.py` — the per-response classification inside
  `_request` (success / raise / retry) and the resulting exception kind.
* `kalshi/websocket_client.py` — `subscribe` and the orderbook sequence
  gap handling in `_handle_raw`.

Python dicts are embedded as association lists (insert replaces in place,
otherwise appends, matching dict insertion-order semantics for the
observations we make: lookup, deletion, max over keys).  Python floats
only ever hold exact halves and hundredths here, so they are embedded as
`Rat`.  Asynchronous effects (queue puts, notifier sets, subscribe sends,
sleeps, DB inserts) are recorded explicitly in the returned state.
-/

namespace Polly

/-! ## Association list helpers (embedding of Python dict) -/

def alLookup {α : Type} : List (String × α) → String → Option α
  | [], _ => none
  | (k, v) :: rest, t => if k = t then some v else alLookup rest t

def alUpdate {α : Type} : List (String × α) → String → α → List (String × α)
  | [], t, v => [(t, v)]
  | (k, w) :: rest, t, v =>
      if k = t then (k, v) :: rest else (k, w) :: alUpdate rest t v

def alRemove {α : Type} : List (String × α) → String → List (String × α)
  | [], _ => []
  | (k, v) :: rest, t => if k = t then alRemove rest t else (k, v) :: alRemove rest t

/-- Integer-keyed association list: the orderbook side maps `price → qty`. -/
def pmLookup : List (Int × Int) → Int → Option Int
  | [], _ => none
  | (k, v) :: rest, t => if k = t then some v else pmLookup rest t

def pmInsert : List (Int × Int) → Int → Int → List (Int × Int)
  | [], t, v => [(t, v)]
  | (k, w) :: rest, t, v =>
      if k = t then (k, v) :: rest else (k, w) :: pmInsert rest t v

def pmErase : List (Int × Int) → Int → List (Int × Int)
  | [], _ => []
  | (k, v) :: rest, t => if k = t then pmErase rest t else (k, v) :: pmErase rest t

/-- Embedding of the dict comprehension
`\x7bint(p): int(q) for p, q in levels\x7d`: later pairs overwrite earlier
ones with the same price. -/
def pmOfLevels (levels : List (Int × Int)) : List (Int × Int) :=
  levels.foldl (fun m pq => pmInsert m pq.1 pq.2) []

/-- Embedding of Python `max(d.keys(), default=0)`. -/
def pmMaxKeyD0 (l : List (Int × Int)) : Int :=
  match l with
  | [] => 0
  | (p, _) :: rest => rest.foldl (fun a pq => max a pq.1) p

/-! ## Market cache data model (`market_cache.py`) -/

structure Trade where
  yes_price : Int
  count : Int
  taker_side : String
  ts : Int
deriving DecidableEq, Repr

structure Orderbook where
  yes : List (Int × Int)
  no : List (Int × Int)
  seq : Option Int
deriving DecidableEq, Repr

structure MarketState where
  market_ticker : String
  event_ticker : String
  series_ticker : String
  market_status : String
  yes_bid : Int
  no_bid : Int
  yes_ask : Int
  no_ask : Int
  last_price : Int
  volume : Int
  open_interest : Int
  spread : Int
  midpoint : Rat
  implied_probability : Rat
  last_updated_timestamp : Int
  orderbook : Option Orderbook
  recent_trades : List Trade
deriving DecidableEq, Repr

/-- Embedding of `_compute_derived(yes_bid, no_bid)`: returns
`(yes_ask, no_ask, spread, midpoint, implied_probability)`. -/
def computeDerived (yes_bid no_bid : Int) : Int × Int × Int × Rat × Rat :=
  let yes_ask := 100 - no_bid
  let no_ask := 100 - yes_bid
  let spread := yes_ask - yes_bid
  let midpoint : Rat := ((yes_bid + yes_ask : Int) : Rat) / 2
  let implied_probability : Rat := ((yes_bid : Int) : Rat) / 100
  (yes_ask, no_ask, spread, midpoint, implied_probability)

/-- The cache dict plus the `update_notification` event flag
(`_notify` sets it; waiters clear it, which we never model here). -/
structure MarketCache where
  cache : List (String × MarketState)
  notified : Bool
deriving DecidableEq, Repr

/-- A `ticker` channel message: `none` fields are absent keys. -/
structure TickerMsg where
  market_ticker : Option String
  yes_bid : Option Int
  no_bid : Option Int
  yes_ask : Option Int
  last_price : Option Int
  volume : Option Int
  open_interest : Option Int
  event_ticker : Option String
  series_ticker : Option String
  status : Option String
  ts : Option Int
deriving DecidableEq, Repr

/-- Embedding of `MarketCache.upsert_from_ticker`. -/
def upsertFromTicker (mc : MarketCache) (msg : TickerMsg) : MarketCache :=
  match msg.market_ticker with
  | none => mc
  | some ticker =>
    if ticker = "" then mc
    else
      let yes_bid := msg.yes_bid.getD 0
      let no_bid := msg.no_bid.getD 0
      let yesNoAsk : Int × Int :=
        match msg.yes_ask with
        | some ya => (ya, 100 - yes_bid)
        | none =>
          let d := computeDerived yes_bid no_bid
          (d.1, d.2.1)
      let d := computeDerived yes_bid no_bid
      let spread := d.2.2.1
      let midpoint := d.2.2.2.1
      let implied_prob := d.2.2.2.2
      let cache1 :=
        match alLookup mc.cache ticker with
        | some existing =>
          alUpdate mc.cache ticker
            { existing with
              yes_bid := yes_bid
              no_bid := no_bid
              yes_ask := yesNoAsk.1
              no_ask := yesNoAsk.2
              last_price := msg.last_price.getD existing.last_price
              volume := msg.volume.getD existing.volume
              open_interest := msg.open_interest.getD existing.open_interest
              spread := spread
              midpoint := midpoint
              implied_probability := implied_prob
              last_updated_timestamp := msg.ts.getD existing.last_updated_timestamp }
        | none =>
          alUpdate mc.cache ticker
            { market_ticker := ticker
              event_ticker := msg.event_ticker.getD ""
              series_ticker := msg.series_ticker.getD ""
              market_status := msg.status.getD "open"
              yes_bid := yes_bid
              no_bid := no_bid
              yes_ask := yesNoAsk.1
              no_ask := yesNoAsk.2
              last_price := msg.last_price.getD 0
              volume := msg.volume.getD 0
              open_interest := msg.open_interest.getD 0
              spread := spread
              midpoint := midpoint
              implied_probability := implied_prob
              last_updated_timestamp := msg.ts.getD 0
              orderbook := none
              recent_trades := [] }
      { cache := cache1, notified := true }

/-- REST `/markets` discovery data: `none` fields are absent or `None`
values (the source applies `or 0` to the numeric ones). -/
structure DiscoveryData where
  ticker : Option String
  yes_bid : Option Int
  no_bid : Option Int
  event_ticker : Option String
  series_ticker : Option String
  status : Option String
  last_price : Option Int
  volume : Option Int
  open_interest : Option Int
deriving DecidableEq, Repr

/-- Embedding of `MarketCache.upsert_from_discovery`.  Note that the source
returns without calling `_notify`, so `notified` is left unchanged. -/
def upsertFromDiscovery (mc : MarketCache) (d : DiscoveryData) : MarketCache :=
  match d.ticker with
  | none => mc
  | some ticker =>
    if ticker = "" then mc
    else
      let yes_bid := d.yes_bid.getD 0
      let no_bid := d.no_bid.getD 0
      let der := computeDerived yes_bid no_bid
      let cache1 :=
        match alLookup mc.cache ticker with
        | some existing =>
          alUpdate mc.cache ticker
            { existing with
              event_ticker := d.event_ticker.getD existing.event_ticker
              series_ticker := d.series_ticker.getD existing.series_ticker
              market_status := d.status.getD existing.market_status }
        | none =>
          alUpdate mc.cache ticker
            { market_ticker := ticker
              event_ticker := d.event_ticker.getD ""
              series_ticker := d.series_ticker.getD ""
              market_status := d.status.getD "open"
              yes_bid := yes_bid
              no_bid := no_bid
              yes_ask := der.1
              no_ask := der.2.1
              last_price := d.last_price.getD 0
              volume := d.volume.getD 0
              open_interest := d.open_interest.getD 0
              spread := der.2.2.1
              midpoint := der.2.2.2.1
              implied_probability := der.2.2.2.2
              last_updated_timestamp := 0
              orderbook := none
              recent_trades := [] }
      { mc with cache := cache1 }

/-- An `orderbook_delta` channel message (`yes` / `no` are lists of
`(price, qty)` levels; `seq` is `none` when the key is absent). -/
structure DeltaMsg where
  market_ticker : Option String
  seq : Option Int
  yes : List (Int × Int)
  no : List (Int × Int)
deriving DecidableEq, Repr

/-- Delta application to one side map: qty 0 deletes the level, any other
qty sets it. -/
def applyLevels (m : List (Int × Int)) (levels : List (Int × Int)) : List (Int × Int) :=
  levels.foldl
    (fun acc pq => if pq.2 = 0 then pmErase acc pq.1 else pmInsert acc pq.1 pq.2) m

/-- Embedding of `MarketCache.apply_orderbook_delta`.  A missing market is
an early return inside the lock, which skips `_notify`. -/
def applyOrderbookDelta (mc : MarketCache) (msg : DeltaMsg) : MarketCache :=
  match msg.market_ticker with
  | none => mc
  | some ticker =>
    if ticker = "" then mc
    else
      match alLookup mc.cache ticker with
      | none => mc
      | some state =>
        let snapshotBook : Orderbook :=
          { yes := pmOfLevels msg.yes, no := pmOfLevels msg.no, seq := msg.seq }
        let ob : Orderbook :=
          match state.orderbook with
          | none => snapshotBook
          | some ob0 =>
            if msg.seq = some 1 then snapshotBook
            else
              { yes := applyLevels ob0.yes msg.yes
                no := applyLevels ob0.no msg.no
                seq := msg.seq }
        let state1 := { state with orderbook := some ob }
        let state2 :=
          if state1.orderbook.isSome then
            let best_yes_bid := pmMaxKeyD0 ob.yes
            let best_no_bid := pmMaxKeyD0 ob.no
            { state1 with
              yes_bid := best_yes_bid
              no_bid := best_no_bid
              yes_ask := 100 - best_no_bid
              no_ask := 100 - best_yes_bid
              spread := (100 - best_no_bid) - best_yes_bid
              midpoint := ((best_yes_bid + (100 - best_no_bid) : Int) : Rat) / 2
              implied_probability := ((best_yes_bid : Int) : Rat) / 100 }
          else state1
        { cache := alUpdate mc.cache ticker state2, notified := true }

/-- A public `trade` channel message. -/
structure TradeMsg where
  market_ticker : Option String
  yes_price : Option Int
  count : Option Int
  taker_side : Option String
  ts : Option Int
deriving DecidableEq, Repr

/-- Bounded deque append (`deque(maxlen=100)`). -/
def dequeAppend100 (l : List Trade) (x : Trade) : List Trade :=
  let l1 := l ++ [x]
  l1.drop (l1.length - 100)

/-- Embedding of `MarketCache.append_trade`.  Note the source calls
`_notify` even when the market is unknown (only the falsy-ticker early
return skips it). -/
def appendTrade (mc : MarketCache) (msg : TradeMsg) : MarketCache :=
  match msg.market_ticker with
  | none => mc
  | some ticker =>
    if ticker = "" then mc
    else
      let trade : Trade :=
        { yes_price := msg.yes_price.getD 0
          count := msg.count.getD 0
          taker_side := msg.taker_side.getD ""
          ts := msg.ts.getD 0 }
      let cache1 :=
        match alLookup mc.cache ticker with
        | some state =>
          alUpdate mc.cache ticker
            { state with recent_trades := dequeAppend100 state.recent_trades trade }
        | none => mc.cache
      { cache := cache1, notified := true }

/-- Embedding of `MarketCache.update_status`: `_notify` runs whether or not
the market exists. -/
def updateStatus (mc : MarketCache) (ticker status : String) : MarketCache :=
  let cache1 :=
    match alLookup mc.cache ticker with
    | some state => alUpdate mc.cache ticker { state with market_status := status }
    | none => mc.cache
  { cache := cache1, notified := true }

/-! ## Execution engine (`trading/execution_engine.py`) -/

/-- Embedding of `TradeIntent` with UUID fields as strings (the engine
only ever uses `str(...)` of them) and the float confidence as `Rat`. -/
structure TradeIntent where
  agent_id : String
  client_order_id : String
  market_ticker : String
  action : String
  side : String
  order_type : String
  price : Int
  count : Int
  confidence : Rat
  generated_at : Int
deriving DecidableEq, Repr

/-- Embedding of `ExecutionEngine._validate`. -/
def validate (intent : TradeIntent) : Bool :=
  if ¬(1 ≤ intent.price ∧ intent.price ≤ 99) then false
  else if intent.count ≤ 0 then false
  else if intent.market_ticker = "" then false
  else if ¬(intent.action = "buy" ∨ intent.action = "sell") then false
  else if ¬(intent.side = "yes" ∨ intent.side = "no") then false
  else true

/-- What one `create_order` call produces, as seen by the engine
exception handlers in `_submit_with_retry`. -/
inductive AttemptResult
  | success
  | permissionDenied
  | otherError
deriving DecidableEq, Repr

inductive SubmitOutcome
  | submitted
  | halted401
  | failed
  | droppedInvalid
  | droppedDuplicate
deriving DecidableEq, Repr

/-- Observable trace of a `_submit_with_retry` run: how it ended, how many
POSTs (`create_order` calls) it made, how many backoff sleeps it took, and
how many Order rows it persisted. -/
structure SubmitTrace where
  outcome : SubmitOutcome
  posts : Nat
  sleeps : Nat
  persisted : Nat
deriving DecidableEq, Repr

/-- The `for attempt in range(5)` loop of `_submit_with_retry`:
`resp i` is what the i-th `create_order` call does; `fuel` counts the
attempts that remain.  On generic exceptions the source sleeps and
continues; after the loop the order is marked permanently FAILED. -/
def submitGo (resp : Nat → AttemptResult) (start : Nat) : Nat → SubmitTrace
  | 0 => { outcome := .failed, posts := 0, sleeps := 0, persisted := 0 }
  | n + 1 =>
    match resp start with
    | .success => { outcome := .submitted, posts := 1, sleeps := 0, persisted := 1 }
    | .permissionDenied => { outcome := .halted401, posts := 1, sleeps := 0, persisted := 0 }
    | .otherError =>
      let rest := submitGo resp (start + 1) n
      { rest with posts := rest.posts + 1, sleeps := rest.sleeps + 1 }

def submitWithRetry (resp : Nat → AttemptResult) : SubmitTrace :=
  submitGo resp 0 5

/-- Result of `ExecutionEngine.execute`: the idempotency set
`_submitted_ids` afterwards plus the submission trace. -/
structure ExecResult where
  submitted_ids : List String
  outcome : SubmitOutcome
  posts : Nat
  sleeps : Nat
  persisted : Nat
deriving DecidableEq, Repr

/-- Embedding of `ExecutionEngine.execute`: validation, then the
idempotency guard on `_submitted_ids`, then `_submit_with_retry`. -/
def execute (ids : List String) (intent : TradeIntent) (resp : Nat → AttemptResult) :
    ExecResult :=
  if validate intent = false then
    { submitted_ids := ids, outcome := .droppedInvalid, posts := 0, sleeps := 0, persisted := 0 }
  else if ids.contains intent.client_order_id then
    { submitted_ids := ids, outcome := .droppedDuplicate, posts := 0, sleeps := 0, persisted := 0 }
  else
    let tr := submitWithRetry resp
    { submitted_ids := intent.client_order_id :: ids
      outcome := tr.outcome
      posts := tr.posts
      sleeps := tr.sleeps
      persisted := tr.persisted }

/-! ## Permission layer (`trading/permission_layer.py`) -/

structure PermissionLayer where
  global_trading_enabled : Bool
  active_environment : String
  keys_loaded : List (String × Bool)
  agent_modes : List (String × String)
  has_callback : Bool
deriving DecidableEq, Repr

/-- Embedding of `TradingPermissionLayer.submit`: `some (intent, env)`
when the downstream approved-callback is invoked with those arguments,
`none` when the intent is dropped (no exception path exists). -/
def plSubmit (pl : PermissionLayer) (intent : TradeIntent) :
    Option (TradeIntent × String) :=
  if ¬pl.global_trading_enabled then none
  else
    let env := pl.active_environment
    if ¬((alLookup pl.keys_loaded env).getD false) then none
    else if (alLookup pl.agent_modes intent.agent_id).getD "FullStop" ≠ "Auto" then none
    else if pl.has_callback then some (intent, env) else none

/-! ## REST client response handling (`kalshi/rest_client.py`) -/

/-- What one iteration of the `while True` loop in `_request` does with the
HTTP response it gets. -/
inductive RestStep
  | ok
  | raiseHttp (status : Nat)
  | raisePermission
  | retrySleep (delay : Rat)
  | loopNoSleep
deriving DecidableEq, Repr

def noRetryCodes : List Nat := [400, 401, 404]

/-- Embedding of `_RETRY_TABLE`: status → (initial delay in seconds, max
attempts). -/
def retryTable (status : Nat) : Option (Rat × Nat) :=
  if status = 429 then some (1 / 10, 5)
  else if status = 500 then some (1 / 2, 3)
  else if status = 503 then some (1, 3)
  else none

/-- Embedding of the response classification in `_request`, branch for
branch in source order: 200/201 return; `_NO_RETRY_CODES` call
`raise_for_status` (which raises for any status ≥ 400); then the
dedicated 401 branch; then the retry table; then the final
`raise_for_status`. -/
def requestStep (status : Nat) (attempt : Nat) : RestStep :=
  if status = 200 ∨ status = 201 then .ok
  else if status ∈ noRetryCodes then
    if 400 ≤ status then .raiseHttp status else .loopNoSleep
  else if status = 401 then .raisePermission
  else
    match retryTable status with
    | some (base_delay, max_att) =>
      if attempt < max_att then
        .retrySleep (if status = 429 then base_delay * 2 ^ attempt else base_delay)
      else if 400 ≤ status then .raiseHttp status else .loopNoSleep
    | none => if 400 ≤ status then .raiseHttp status else .loopNoSleep

/-- Exception kinds a `_request` call can surface to the engine. -/
inductive RestExn
  | http (status : Nat)
  | permission
deriving DecidableEq, Repr

/-- Run `_request` against a list of successive HTTP response statuses.
`some none` is a normal return, `some (some e)` an exception, `none`
means the loop is still going when the statuses run out. -/
def restRun : List Nat → Nat → Option (Option RestExn)
  | [], _ => none
  | s :: rest, attempt =>
    match requestStep s attempt with
    | .ok => some none
    | .raiseHttp c => some (some (.http c))
    | .raisePermission => some (some .permission)
    | .retrySleep _ => restRun rest (attempt + 1)
    | .loopNoSleep => restRun rest attempt

/-- How `_submit_with_retry` reacts to a `_request` exception: only a
literal `PermissionError` hits the 401-halt handler; every other
exception falls to the generic retry handler. -/
def attemptResultOf : Option RestExn → AttemptResult
  | none => .success
  | some .permission => .permissionDenied
  | some (.http _) => .otherError

/-! ## WebSocket client (`kalshi/websocket_client.py`) -/

/-- WebSocket client state: the desired subscription set, the per-ticker
orderbook sequence tracker, plus observable effects — the inbound queue
(entries recorded as `(ticker, seq)`) and the subscribe commands sent. -/
structure WsState where
  subscriptions : List (String × String)
  ob_seq : List (String × Int)
  queue : List (String × Int)
  sent : List (List String × List String)
  ws_open : Bool
deriving DecidableEq, Repr

def subInsert (subs : List (String × String)) (k : String × String) :
    List (String × String) :=
  if subs.contains k then subs else k :: subs

def subRemove : List (String × String) → String × String → List (String × String)
  | [], _ => []
  | x :: rest, k => if x = k then subRemove rest k else x :: subRemove rest k

/-- Embedding of `KalshiWebSocketClient.subscribe`: only genuinely new
`(channel, ticker)` keys are added; if any are, and the socket is open,
one subscribe command carrying the original argument lists is sent. -/
def wsSubscribe (st : WsState) (channels tickers : List String) : WsState :=
  let all_keys := channels.flatMap (fun ch => tickers.map (fun mt => (ch, mt)))
  let new_keys := all_keys.filter (fun k => ¬st.subscriptions.contains k)
  if new_keys.isEmpty then st
  else
    let subs := new_keys.foldl subInsert st.subscriptions
    if st.ws_open then
      { st with subscriptions := subs, sent := st.sent ++ [(channels, tickers)] }
    else
      { st with subscriptions := subs }

/-- Embedding of the `orderbook_delta` path of `_handle_raw` (source lines
262-284) for a message with a truthy ticker and a non-`None` seq; the
`asyncio.create_task(self.subscribe(...))` in the gap branch is run to
completion.  On a gap: evict the tracked seq, discard the subscription,
re-subscribe, and do not enqueue.  Otherwise: record the seq and enqueue. -/
def handleObDelta (st : WsState) (ticker : String) (seq : Int) : WsState :=
  match alLookup st.ob_seq ticker with
  | some s_prev =>
    if seq ≠ s_prev + 1 then
      let st1 :=
        { st with
          ob_seq := alRemove st.ob_seq ticker
          subscriptions := subRemove st.subscriptions ("orderbook_delta", ticker) }
      wsSubscribe st1 ["orderbook_delta"] [ticker]
    else
      { st with
        ob_seq := alUpdate st.ob_seq ticker seq
        queue := st.queue ++ [(ticker, seq)] }
  | none =>
    { st with
      ob_seq := alUpdate st.ob_seq ticker seq
      queue := st.queue ++ [(ticker, seq)] }

/-! ## Helper lemmas -/

theorem alLookup_alUpdate {α : Type} (l : List (String × α)) (k t : String) (v : α) :
    alLookup (alUpdate l k v) t = if k = t then some v else alLookup l t := by
  induction l with
  | nil => simp [alUpdate, alLookup]
  | cons x rest ih =>
    obtain ⟨a, w⟩ := x
    by_cases hak : a = k
    · subst hak
      by_cases hat : a = t <;> simp [alUpdate, alLookup, hat]
    · by_cases hat : a = t
      · subst hat
        have hkt : k ≠ a := fun h => hak h.symm
        simp [alUpdate, alLookup, hak, hkt]
      · simp [alUpdate, alLookup, hak, hat, ih]

theorem alLookup_alRemove_self {α : Type} (l : List (String × α)) (t : String) :
    alLookup (alRemove l t) t = none := by
  induction l with
  | nil => rfl
  | cons x rest ih =>
    obtain ⟨a, w⟩ := x
    by_cases hat : a = t
    · simp [alRemove, hat, ih]
    · simp [alRemove, hat, alLookup, ih]

/-- Characterization of `validate` as the conjunction of its checks. -/
theorem validate_true_iff (intent : TradeIntent) :
    validate intent = true ↔
      (1 ≤ intent.price ∧ intent.price ≤ 99) ∧ 0 < intent.count ∧
      intent.market_ticker ≠ "" ∧
      (intent.action = "buy" ∨ intent.action = "sell") ∧
      (intent.side = "yes" ∨ intent.side = "no") := by
  unfold validate
  split_ifs with h1 h2 h3 h4 h5 <;> simp_all

/-- The retry loop never produces a validation or duplicate outcome, and
persists at most one Order row. -/
theorem submitGo_outcome (resp : Nat → AttemptResult) (start n : Nat) :
    (submitGo resp start n).outcome ≠ SubmitOutcome.droppedInvalid
    ∧ (submitGo resp start n).outcome ≠ SubmitOutcome.droppedDuplicate
    ∧ (submitGo resp start n).persisted ≤ 1 := by
  induction n generalizing start with
  | zero => simp [submitGo]
  | succ n ih =>
    simp only [submitGo]
    cases resp start <;> simp
    exact ih (start + 1)

/-! ## Claim theorems -/

/-- C10: when the market_ticker of an `orderbook_delta` message is not in
the cache, `apply_orderbook_delta` is a complete no-op: no MarketState is
created, no orderbook is stored, and the update notification is not set. -/
theorem applyOrderbookDelta_unknown_market_noop
    (mc : MarketCache) (msg : DeltaMsg) (t : String)
    (ht : msg.market_ticker = some t)
    (hmiss : alLookup mc.cache t = none) :
    applyOrderbookDelta mc msg = mc := by
  unfold applyOrderbookDelta
  rw [ht]
  by_cases he : t = ""
  · simp [he]
  · simp [he, hmiss]

/-- Witness for C10: a delta for an unknown ticker on the empty cache. -/
theorem applyOrderbookDelta_unknown_market_noop_witness :
    applyOrderbookDelta ⟨[], false⟩
        { market_ticker := some "KXBTC-25", seq := some 2,
          yes := [(10, 5)], no := [] }
      = ⟨[], false⟩ :=
  applyOrderbookDelta_unknown_market_noop ⟨[], false⟩ _ "KXBTC-25" rfl rfl

/-- C8: `execute` accepts prices 1 and 99 (the intent passes validation and
proceeds toward submission) and rejects prices 0 and 100: the intent is
dropped with no idempotency record, no POST, no sleep, no persisted row,
and no error raised (the call just returns). -/
theorem execute_price_bounds
    (ids : List String) (intent : TradeIntent) (resp : Nat → AttemptResult)
    (hc : 0 < intent.count) (hm : intent.market_ticker ≠ "")
    (ha : intent.action = "buy" ∨ intent.action = "sell")
    (hs : intent.side = "yes" ∨ intent.side = "no") :
    validate { intent with price := 1 } = true
    ∧ validate { intent with price := 99 } = true
    ∧ (execute ids { intent with price := 1 } resp).outcome ≠ SubmitOutcome.droppedInvalid
    ∧ (execute ids { intent with price := 99 } resp).outcome ≠ SubmitOutcome.droppedInvalid
    ∧ execute ids { intent with price := 0 } resp
        = { submitted_ids := ids, outcome := .droppedInvalid,
            posts := 0, sleeps := 0, persisted := 0 }
    ∧ execute ids { intent with price := 100 } resp
        = { submitted_ids := ids, outcome := .droppedInvalid,
            posts := 0, sleeps := 0, persisted := 0 } := by
  have hv1 : validate { intent with price := 1 } = true := by
    rw [validate_true_iff]
    dsimp only
    exact ⟨by omega, hc, hm, ha, hs⟩
  have hv99 : validate { intent with price := 99 } = true := by
    rw [validate_true_iff]
    dsimp only
    exact ⟨by omega, hc, hm, ha, hs⟩
  have hv0 : validate { intent with price := 0 } = false := by
    rcases hb : validate { intent with price := 0 } with _ | _
    · rfl
    · have h2 := (validate_true_iff { intent with price := 0 }).mp hb
      dsimp only at h2
      omega
  have hv100 : validate { intent with price := 100 } = false := by
    rcases hb : validate { intent with price := 100 } with _ | _
    · rfl
    · have h2 := (validate_true_iff { intent with price := 100 }).mp hb
      dsimp only at h2
      omega
  refine ⟨hv1, hv99, ?_, ?_, by simp [execute, hv0], by simp [execute, hv100]⟩
  · by_cases hdup : intent.client_order_id ∈ ids <;>
      simp [execute, hv1, hdup, submitWithRetry, (submitGo_outcome resp 0 5).1]
  · by_cases hdup : intent.client_order_id ∈ ids <;>
      simp [execute, hv99, hdup, submitWithRetry, (submitGo_outcome resp 0 5).1]

/-- Witness for C8 at a concrete intent. -/
theorem execute_price_bounds_witness :
    validate { agent_id := "a1", client_order_id := "c8", market_ticker := "MKT",
               action := "buy", side := "yes", order_type := "limit",
               price := 1, count := 1, confidence := 0, generated_at := 0 } = true
    ∧ execute ["other"]
        { agent_id := "a1", client_order_id := "c8", market_ticker := "MKT",
          action := "buy", side := "yes", order_type := "limit",
          price := 100, count := 1, confidence := 0, generated_at := 0 }
        (fun _ => AttemptResult.success)
      = { submitted_ids := ["other"], outcome := .droppedInvalid,
          posts := 0, sleeps := 0, persisted := 0 } := by
  have h := execute_price_bounds ["other"]
    { agent_id := "a1", client_order_id := "c8", market_ticker := "MKT",
      action := "buy", side := "yes", order_type := "limit",
      price := 7, count := 1, confidence := 0, generated_at := 0 }
    (fun _ => AttemptResult.success)
    (by decide) (by decide) (Or.inl rfl) (Or.inl rfl)
  exact ⟨h.1, h.2.2.2.2.2⟩

/-- C2: once a validated intent has recorded its `client_order_id`, a
second `execute` with the same id returns at the idempotency guard: zero
POSTs, zero persisted rows, state unchanged — so at most one successful
submit (persisted Order row) ever carries this `client_order_id`. -/
theorem execute_duplicate_short_circuits
    (ids : List String) (intent : TradeIntent)
    (resp resp2 : Nat → AttemptResult)
    (hv : validate intent = true)
    (hnew : intent.client_order_id ∉ ids) :
    (execute ids intent resp).submitted_ids = intent.client_order_id :: ids
    ∧ execute (execute ids intent resp).submitted_ids intent resp2
        = { submitted_ids := intent.client_order_id :: ids
            outcome := .droppedDuplicate, posts := 0, sleeps := 0, persisted := 0 }
    ∧ (execute ids intent resp).persisted
        + (execute (execute ids intent resp).submitted_ids intent resp2).persisted ≤ 1 := by
  have h1 : (execute ids intent resp).submitted_ids = intent.client_order_id :: ids := by
    simp [execute, hv, hnew]
  have h2 : execute (intent.client_order_id :: ids) intent resp2
      = { submitted_ids := intent.client_order_id :: ids
          outcome := .droppedDuplicate, posts := 0, sleeps := 0, persisted := 0 } := by
    simp [execute, hv]
  have h3 : (execute ids intent resp).persisted ≤ 1 := by
    simp [execute, hv, hnew, submitWithRetry]
    exact (submitGo_outcome resp 0 5).2.2
  refine ⟨h1, by rw [h1]; exact h2, ?_⟩
  rw [h1, h2]
  simpa using h3

/-- Witness for C2: a concrete valid intent submitted twice. -/
theorem execute_duplicate_short_circuits_witness :
    execute
        (execute []
          { agent_id := "a1", client_order_id := "c2-dup", market_ticker := "MKT",
            action := "buy", side := "yes", order_type := "limit",
            price := 40, count := 2, confidence := 0, generated_at := 0 }
          (fun _ => AttemptResult.success)).submitted_ids
        { agent_id := "a1", client_order_id := "c2-dup", market_ticker := "MKT",
          action := "buy", side := "yes", order_type := "limit",
          price := 40, count := 2, confidence := 0, generated_at := 0 }
        (fun _ => AttemptResult.success)
      = { submitted_ids := ["c2-dup"]
          outcome := .droppedDuplicate, posts := 0, sleeps := 0, persisted := 0 } :=
  (execute_duplicate_short_circuits []
    { agent_id := "a1", client_order_id := "c2-dup", market_ticker := "MKT",
      action := "buy", side := "yes", order_type := "limit",
      price := 40, count := 2, confidence := 0, generated_at := 0 }
    (fun _ => AttemptResult.success) (fun _ => AttemptResult.success)
    (by decide) (by decide)).2.1

/-- C9: the idempotency record is made before submission and survives
failure — when every attempt raises a generic error, the first call makes
5 POSTs and ends with the order-failed broadcast, and a later call with
the same `client_order_id` returns at the guard with zero POSTs. -/
theorem execute_failed_intent_never_resubmitted
    (ids : List String) (intent : TradeIntent) (resp2 : Nat → AttemptResult)
    (hv : validate intent = true)
    (hnew : intent.client_order_id ∉ ids) :
    (execute ids intent (fun _ => AttemptResult.otherError)).outcome
        = SubmitOutcome.failed
    ∧ (execute ids intent (fun _ => AttemptResult.otherError)).posts = 5
    ∧ (execute ids intent (fun _ => AttemptResult.otherError)).submitted_ids
        = intent.client_order_id :: ids
    ∧ (execute (execute ids intent (fun _ => AttemptResult.otherError)).submitted_ids
          intent resp2).posts = 0
    ∧ (execute (execute ids intent (fun _ => AttemptResult.otherError)).submitted_ids
          intent resp2).outcome = SubmitOutcome.droppedDuplicate := by
  have hgo : submitGo (fun _ => AttemptResult.otherError) 0 5
      = { outcome := .failed, posts := 5, sleeps := 5, persisted := 0 } := rfl
  have h1 : execute ids intent (fun _ => AttemptResult.otherError)
      = { submitted_ids := intent.client_order_id :: ids
          outcome := .failed, posts := 5, sleeps := 5, persisted := 0 } := by
    simp [execute, hv, hnew, submitWithRetry, hgo]
  rw [h1]
  have h2 : execute (intent.client_order_id :: ids) intent resp2
      = { submitted_ids := intent.client_order_id :: ids
          outcome := .droppedDuplicate, posts := 0, sleeps := 0, persisted := 0 } := by
    simp [execute, hv]
  exact ⟨rfl, rfl, rfl, by rw [h2], by rw [h2]⟩

/-- Witness for C9 at a concrete intent whose every attempt fails. -/
theorem execute_failed_intent_never_resubmitted_witness :
    (execute []
        { agent_id := "a1", client_order_id := "c9-fail", market_ticker := "MKT",
          action := "sell", side := "no", order_type := "limit",
          price := 60, count := 3, confidence := 0, generated_at := 0 }
        (fun _ => AttemptResult.otherError)).outcome = SubmitOutcome.failed
    ∧ (execute
        (execute []
          { agent_id := "a1", client_order_id := "c9-fail", market_ticker := "MKT",
            action := "sell", side := "no", order_type := "limit",
            price := 60, count := 3, confidence := 0, generated_at := 0 }
          (fun _ => AttemptResult.otherError)).submitted_ids
        { agent_id := "a1", client_order_id := "c9-fail", market_ticker := "MKT",
          action := "sell", side := "no", order_type := "limit",
          price := 60, count := 3, confidence := 0, generated_at := 0 }
        (fun _ => AttemptResult.success)).posts = 0 := by
  have h := execute_failed_intent_never_resubmitted []
    { agent_id := "a1", client_order_id := "c9-fail", market_ticker := "MKT",
      action := "sell", side := "no", order_type := "limit",
      price := 60, count := 3, confidence := 0, generated_at := 0 }
    (fun _ => AttemptResult.success) (by decide) (by decide)
  exact ⟨h.1, h.2.2.2.1⟩

/-- C1 (code bug evaluation): because 401 is listed in `_NO_RETRY_CODES`,
the `raise_for_status` branch fires first and surfaces a generic HTTP
exception; the dedicated `PermissionError` branch for 401 is unreachable.
The engine therefore takes the generic exception handler on a 401 and
retries: with the server answering 401 on every attempt, `execute` makes
5 POSTs with 5 backoff sleeps and ends in the order-failed state instead
of halting after one attempt. -/
theorem rest401_generic_exception_engine_retries :
    requestStep 401 0 = RestStep.raiseHttp 401
    ∧ requestStep 401 0 ≠ RestStep.raisePermission
    ∧ restRun [401] 0 = some (some (RestExn.http 401))
    ∧ attemptResultOf (some (RestExn.http 401)) = AttemptResult.otherError
    ∧ (execute []
        { agent_id := "a1", client_order_id := "c1-401", market_ticker := "MKT",
          action := "buy", side := "yes", order_type := "limit",
          price := 50, count := 1, confidence := 0, generated_at := 0 }
        (fun _ =>
          match restRun [401] 0 with
          | some out => attemptResultOf out
          | none => AttemptResult.otherError)).posts = 5
    ∧ (execute []
        { agent_id := "a1", client_order_id := "c1-401", market_ticker := "MKT",
          action := "buy", side := "yes", order_type := "limit",
          price := 50, count := 1, confidence := 0, generated_at := 0 }
        (fun _ =>
          match restRun [401] 0 with
          | some out => attemptResultOf out
          | none => AttemptResult.otherError)).sleeps = 5
    ∧ (execute []
        { agent_id := "a1", client_order_id := "c1-401", market_ticker := "MKT",
          action := "buy", side := "yes", order_type := "limit",
          price := 50, count := 1, confidence := 0, generated_at := 0 }
        (fun _ =>
          match restRun [401] 0 with
          | some out => attemptResultOf out
          | none => AttemptResult.otherError)).outcome = SubmitOutcome.failed := by
  decide

/-- C7 (code bug evaluation): `upsert_from_discovery` never signals the
update notifier, neither when it inserts a new market nor when it changes
metadata on an existing one, while the other four write operations do. -/
theorem upsertFromDiscovery_does_not_notify :
    (upsertFromDiscovery ⟨[], false⟩
        { ticker := some "T1", yes_bid := some 30, no_bid := some 60,
          event_ticker := none, series_ticker := none, status := none,
          last_price := none, volume := none, open_interest := none }).notified = false
    ∧ (alLookup (upsertFromDiscovery ⟨[], false⟩
        { ticker := some "T1", yes_bid := some 30, no_bid := some 60,
          event_ticker := none, series_ticker := none, status := none,
          last_price := none, volume := none, open_interest := none }).cache "T1").isSome
        = true
    ∧ (upsertFromDiscovery
        { cache := (upsertFromTicker ⟨[], false⟩
            { market_ticker := some "T1", yes_bid := some 30, no_bid := some 60,
              yes_ask := none, last_price := none, volume := none,
              open_interest := none, event_ticker := none, series_ticker := none,
              status := none, ts := none }).cache
          notified := false }
        { ticker := some "T1", yes_bid := none, no_bid := none,
          event_ticker := none, series_ticker := none, status := some "halted",
          last_price := none, volume := none, open_interest := none }).notified = false
    ∧ ((alLookup (upsertFromDiscovery
        { cache := (upsertFromTicker ⟨[], false⟩
            { market_ticker := some "T1", yes_bid := some 30, no_bid := some 60,
              yes_ask := none, last_price := none, volume := none,
              open_interest := none, event_ticker := none, series_ticker := none,
              status := none, ts := none }).cache
          notified := false }
        { ticker := some "T1", yes_bid := none, no_bid := none,
          event_ticker := none, series_ticker := none, status := some "halted",
          last_price := none, volume := none, open_interest := none }).cache "T1").map
          MarketState.market_status) = some "halted"
    ∧ (upsertFromTicker ⟨[], false⟩
        { market_ticker := some "T1", yes_bid := some 30, no_bid := some 60,
          yes_ask := none, last_price := none, volume := none,
          open_interest := none, event_ticker := none, series_ticker := none,
          status := none, ts := none }).notified = true
    ∧ (appendTrade ⟨[], false⟩
        { market_ticker := some "T1", yes_price := some 30, count := some 1,
          taker_side := some "yes", ts := some 0 }).notified = true
    ∧ (updateStatus ⟨[], false⟩ "T1" "closed").notified = true := by
  decide

/-- C4: with a downstream callback registered, `submit` forwards
`(intent, active environment)` if and only if global trading is enabled,
keys are loaded for the active environment, and the agent mode is Auto;
whenever a gate fails the intent is silently dropped (`none`, no error
path). -/
theorem plSubmit_forwards_iff_gates
    (pl : PermissionLayer) (intent : TradeIntent)
    (hcb : pl.has_callback = true) :
    (plSubmit pl intent = some (intent, pl.active_environment)
      ↔ pl.global_trading_enabled = true
        ∧ (alLookup pl.keys_loaded pl.active_environment).getD false = true
        ∧ (alLookup pl.agent_modes intent.agent_id).getD "FullStop" = "Auto")
    ∧ (¬(pl.global_trading_enabled = true
          ∧ (alLookup pl.keys_loaded pl.active_environment).getD false = true
          ∧ (alLookup pl.agent_modes intent.agent_id).getD "FullStop" = "Auto")
        → plSubmit pl intent = none) := by
  unfold plSubmit
  split_ifs with h1 h2 _h3 <;> simp_all

/-- Witness for C4: all gates pass at a concrete layer state and the
intent is forwarded with the active environment. -/
theorem plSubmit_forwards_iff_gates_witness :
    plSubmit
        { global_trading_enabled := true, active_environment := "demo",
          keys_loaded := [("live", false), ("demo", true)],
          agent_modes := [("agent-1", "Auto")], has_callback := true }
        { agent_id := "agent-1", client_order_id := "c4", market_ticker := "MKT",
          action := "buy", side := "yes", order_type := "limit",
          price := 50, count := 1, confidence := 0, generated_at := 0 }
      = some
          ({ agent_id := "agent-1", client_order_id := "c4", market_ticker := "MKT",
             action := "buy", side := "yes", order_type := "limit",
             price := 50, count := 1, confidence := 0, generated_at := 0 }, "demo") :=
  ((plSubmit_forwards_iff_gates
      { global_trading_enabled := true, active_environment := "demo",
        keys_loaded := [("live", false), ("demo", true)],
        agent_modes := [("agent-1", "Auto")], has_callback := true }
      { agent_id := "agent-1", client_order_id := "c4", market_ticker := "MKT",
        action := "buy", side := "yes", order_type := "limit",
        price := 50, count := 1, confidence := 0, generated_at := 0 }
      rfl).1).mpr (by decide)

/-- A key just removed from the subscription set is no longer a member. -/
theorem subRemove_not_mem (subs : List (String × String)) (k : String × String) :
    k ∉ subRemove subs k := by
  induction subs with
  | nil => simp [subRemove]
  | cons x rest ih =>
    by_cases hx : x = k
    · simpa [subRemove, hx] using ih
    · simp only [subRemove, if_neg hx, List.mem_cons]
      rintro (h | h)
      · exact hx h.symm
      · exact ih h

/-- C5: for an `orderbook_delta` with seq `s` on ticker `t` (socket open):
if a previous seq is tracked and `s` is not its successor, the message is
not enqueued, the tracked seq is evicted, and the `(orderbook_delta, t)`
subscription is removed then re-added with a subscribe command sent;
otherwise (successor seq, or nothing tracked) the message is enqueued and
`s` becomes the tracked seq, with subscriptions untouched. -/
theorem handleObDelta_gap_resubscribes
    (st : WsState) (t : String) (s : Int)
    (hw : st.ws_open = true) :
    (∀ s_prev, alLookup st.ob_seq t = some s_prev → s ≠ s_prev + 1 →
      (handleObDelta st t s).queue = st.queue
      ∧ alLookup (handleObDelta st t s).ob_seq t = none
      ∧ (handleObDelta st t s).subscriptions.contains ("orderbook_delta", t) = true
      ∧ (handleObDelta st t s).sent = st.sent ++ [(["orderbook_delta"], [t])])
    ∧ (∀ s_prev, alLookup st.ob_seq t = some s_prev → s = s_prev + 1 →
      (handleObDelta st t s).queue = st.queue ++ [(t, s)]
      ∧ alLookup (handleObDelta st t s).ob_seq t = some s
      ∧ (handleObDelta st t s).subscriptions = st.subscriptions
      ∧ (handleObDelta st t s).sent = st.sent)
    ∧ (alLookup st.ob_seq t = none →
      (handleObDelta st t s).queue = st.queue ++ [(t, s)]
      ∧ alLookup (handleObDelta st t s).ob_seq t = some s
      ∧ (handleObDelta st t s).subscriptions = st.subscriptions
      ∧ (handleObDelta st t s).sent = st.sent) := by
  refine ⟨?_, ?_, ?_⟩
  · intro s_prev htrack hgap
    have hmem : ("orderbook_delta", t) ∉ subRemove st.subscriptions ("orderbook_delta", t) :=
      subRemove_not_mem st.subscriptions ("orderbook_delta", t)
    unfold handleObDelta
    rw [htrack]
    simp [hgap, hmem, hw, wsSubscribe, subInsert, alLookup_alRemove_self]
  · intro s_prev htrack hsucc
    unfold handleObDelta
    rw [htrack]
    simp [hsucc, alLookup_alUpdate]
  · intro hnone
    unfold handleObDelta
    rw [hnone]
    simp [alLookup_alUpdate]

/-- Witness for C5: a tracked seq of 4 and an incoming seq of 6 on an open
socket triggers eviction and re-subscription without enqueueing. -/
theorem handleObDelta_gap_resubscribes_witness :
    (handleObDelta
        { subscriptions := [("orderbook_delta", "T1")], ob_seq := [("T1", 4)],
          queue := [("T1", 4)], sent := [], ws_open := true } "T1" 6).queue
      = [("T1", 4)]
    ∧ alLookup (handleObDelta
        { subscriptions := [("orderbook_delta", "T1")], ob_seq := [("T1", 4)],
          queue := [("T1", 4)], sent := [], ws_open := true } "T1" 6).ob_seq "T1"
      = none
    ∧ (handleObDelta
        { subscriptions := [("orderbook_delta", "T1")], ob_seq := [("T1", 4)],
          queue := [("T1", 4)], sent := [], ws_open := true } "T1" 6).subscriptions.contains
        ("orderbook_delta", "T1") = true
    ∧ (handleObDelta
        { subscriptions := [("orderbook_delta", "T1")], ob_seq := [("T1", 4)],
          queue := [("T1", 4)], sent := [], ws_open := true } "T1" 6).sent
      = [(["orderbook_delta"], ["T1"])] :=
  (handleObDelta_gap_resubscribes
      { subscriptions := [("orderbook_delta", "T1")], ob_seq := [("T1", 4)],
        queue := [("T1", 4)], sent := [], ws_open := true } "T1" 6 rfl).1
    4 rfl (by decide)

/-- C6: when the delta message carries `seq == 1`, or the market has no
existing orderbook, `apply_orderbook_delta` replaces the stored book
wholesale with exactly the yes/no levels and seq of the message — any
prior book is discarded, so a snapshot followed by zero deltas leaves the
book equal to the snapshot verbatim. -/
theorem applyOrderbookDelta_snapshot_replaces_wholesale
    (mc : MarketCache) (msg : DeltaMsg) (t : String) (s : MarketState)
    (ht : msg.market_ticker = some t) (hne : t ≠ "")
    (hs : alLookup mc.cache t = some s)
    (hsnap : msg.seq = some 1 ∨ s.orderbook = none) :
    (alLookup (applyOrderbookDelta mc msg).cache t).map (fun st => st.orderbook)
      = some (some
          { yes := pmOfLevels msg.yes, no := pmOfLevels msg.no, seq := msg.seq }) := by
  unfold applyOrderbookDelta
  rw [ht]
  rcases hob : s.orderbook with _ | ob0
  · simp [hne, hs, hob, alLookup_alUpdate]
  · have hseq : msg.seq = some 1 := by
      rcases hsnap with h | h
      · exact h
      · rw [hob] at h
        exact absurd h (by simp)
    simp [hne, hs, hob, hseq, alLookup_alUpdate]

/-- Witness for C6: a seq-1 snapshot arriving at a market that already
holds a different book replaces it verbatim. -/
theorem applyOrderbookDelta_snapshot_replaces_wholesale_witness :
    (alLookup (applyOrderbookDelta
        { cache :=
            (applyOrderbookDelta
              (upsertFromTicker ⟨[], false⟩
                { market_ticker := some "T1", yes_bid := some 30, no_bid := some 60,
                  yes_ask := none, last_price := none, volume := none,
                  open_interest := none, event_ticker := none, series_ticker := none,
                  status := none, ts := none })
              { market_ticker := some "T1", seq := some 7,
                yes := [(12, 3), (30, 9)], no := [(55, 2)] }).cache
          notified := true }
        { market_ticker := some "T1", seq := some 1,
          yes := [(40, 1)], no := [(45, 6)] }).cache "T1").map (fun st => st.orderbook)
      = some (some
          { yes := pmOfLevels [(40, 1)], no := pmOfLevels [(45, 6)], seq := some 1 }) := by
  rcases hlk : alLookup
      (MarketCache.mk
        (applyOrderbookDelta
          (upsertFromTicker ⟨[], false⟩
            { market_ticker := some "T1", yes_bid := some 30, no_bid := some 60,
              yes_ask := none, last_price := none, volume := none,
              open_interest := none, event_ticker := none, series_ticker := none,
              status := none, ts := none })
          { market_ticker := some "T1", seq := some 7,
            yes := [(12, 3), (30, 9)], no := [(55, 2)] }).cache
        true).cache "T1" with _ | s0
  · exact absurd hlk (by decide)
  · exact applyOrderbookDelta_snapshot_replaces_wholesale
      { cache :=
          (applyOrderbookDelta
            (upsertFromTicker ⟨[], false⟩
              { market_ticker := some "T1", yes_bid := some 30, no_bid := some 60,
                yes_ask := none, last_price := none, volume := none,
                open_interest := none, event_ticker := none, series_ticker := none,
                status := none, ts := none })
            { market_ticker := some "T1", seq := some 7,
              yes := [(12, 3), (30, 9)], no := [(55, 2)] }).cache
        notified := true }
      { market_ticker := some "T1", seq := some 1, yes := [(40, 1)], no := [(45, 6)] }
      "T1" s0 rfl (by decide) hlk (Or.inl rfl)

/-! ## Derived-field invariants (claim C3) -/

/-- The four derived-field identities the spec asserts for a MarketState. -/
def derivedOk (s : MarketState) : Prop :=
  s.yes_ask = 100 - s.no_bid
  ∧ s.no_ask = 100 - s.yes_bid
  ∧ s.spread = s.yes_ask - s.yes_bid
  ∧ s.midpoint = ((s.yes_bid + s.yes_ask : Int) : Rat) / 2

/-- Every market in the cache satisfies the derived-field identities. -/
def cacheOk (mc : MarketCache) : Prop :=
  ∀ t s, alLookup mc.cache t = some s → derivedOk s

theorem cacheOk_upsertFromTicker (mc : MarketCache) (m : TickerMsg)
    (h : cacheOk mc) (hya : m.yes_ask = none) :
    cacheOk (upsertFromTicker mc m) := by
  intro t s hlk
  unfold upsertFromTicker at hlk
  rcases hmt : m.market_ticker with _ | ticker
  · rw [hmt] at hlk
    exact h t s hlk
  · simp only [hmt] at hlk
    by_cases he : ticker = ""
    · simp only [if_pos he] at hlk
      exact h t s hlk
    · simp only [if_neg he, hya] at hlk
      rcases hex : alLookup mc.cache ticker with _ | existing
      · simp only [hex] at hlk
        rw [alLookup_alUpdate] at hlk
        by_cases htt : ticker = t
        · rw [if_pos htt] at hlk
          injection hlk with hs2
          subst hs2
          exact ⟨rfl, rfl, rfl, rfl⟩
        · rw [if_neg htt] at hlk
          exact h t s hlk
      · simp only [hex] at hlk
        rw [alLookup_alUpdate] at hlk
        by_cases htt : ticker = t
        · rw [if_pos htt] at hlk
          injection hlk with hs2
          subst hs2
          exact ⟨rfl, rfl, rfl, rfl⟩
        · rw [if_neg htt] at hlk
          exact h t s hlk

theorem cacheOk_upsertFromDiscovery (mc : MarketCache) (d : DiscoveryData)
    (h : cacheOk mc) :
    cacheOk (upsertFromDiscovery mc d) := by
  intro t s hlk
  unfold upsertFromDiscovery at hlk
  rcases hmt : d.ticker with _ | ticker
  · rw [hmt] at hlk
    exact h t s hlk
  · simp only [hmt] at hlk
    by_cases he : ticker = ""
    · simp only [if_pos he] at hlk
      exact h t s hlk
    · simp only [if_neg he] at hlk
      rcases hex : alLookup mc.cache ticker with _ | existing
      · simp only [hex] at hlk
        rw [alLookup_alUpdate] at hlk
        by_cases htt : ticker = t
        · rw [if_pos htt] at hlk
          injection hlk with hs2
          subst hs2
          exact ⟨rfl, rfl, rfl, rfl⟩
        · rw [if_neg htt] at hlk
          exact h t s hlk
      · simp only [hex] at hlk
        rw [alLookup_alUpdate] at hlk
        by_cases htt : ticker = t
        · rw [if_pos htt] at hlk
          injection hlk with hs2
          subst hs2
          exact h ticker existing hex
        · rw [if_neg htt] at hlk
          exact h t s hlk

theorem cacheOk_applyOrderbookDelta (mc : MarketCache) (dm : DeltaMsg)
    (h : cacheOk mc) :
    cacheOk (applyOrderbookDelta mc dm) := by
  intro t s hlk
  unfold applyOrderbookDelta at hlk
  rcases hmt : dm.market_ticker with _ | ticker
  · rw [hmt] at hlk
    exact h t s hlk
  · simp only [hmt] at hlk
    by_cases he : ticker = ""
    · simp only [if_pos he] at hlk
      exact h t s hlk
    · simp only [if_neg he] at hlk
      rcases hex : alLookup mc.cache ticker with _ | state
      · simp only [hex] at hlk
        exact h t s hlk
      · simp only [hex] at hlk
        rw [alLookup_alUpdate] at hlk
        by_cases htt : ticker = t
        · rw [if_pos htt] at hlk
          rcases hob : state.orderbook with _ | ob0 <;>
            simp only [hob, Option.isSome_some, if_true] at hlk
          · injection hlk with hs2
            subst hs2
            exact ⟨rfl, rfl, rfl, rfl⟩
          · by_cases hseq : dm.seq = some 1 <;>
              simp only [hseq, if_pos, if_neg, ite_true, ite_false] at hlk
            · injection hlk with hs2
              subst hs2
              exact ⟨rfl, rfl, rfl, rfl⟩
            · injection hlk with hs2
              subst hs2
              exact ⟨rfl, rfl, rfl, rfl⟩
        · rw [if_neg htt] at hlk
          exact h t s hlk

theorem cacheOk_appendTrade (mc : MarketCache) (tm : TradeMsg)
    (h : cacheOk mc) :
    cacheOk (appendTrade mc tm) := by
  intro t s hlk
  unfold appendTrade at hlk
  rcases hmt : tm.market_ticker with _ | ticker
  · rw [hmt] at hlk
    exact h t s hlk
  · simp only [hmt] at hlk
    by_cases he : ticker = ""
    · simp only [if_pos he] at hlk
      exact h t s hlk
    · simp only [if_neg he] at hlk
      rcases hex : alLookup mc.cache ticker with _ | state
      · simp only [hex] at hlk
        exact h t s hlk
      · simp only [hex] at hlk
        rw [alLookup_alUpdate] at hlk
        by_cases htt : ticker = t
        · rw [if_pos htt] at hlk
          injection hlk with hs2
          subst hs2
          exact h ticker state hex
        · rw [if_neg htt] at hlk
          exact h t s hlk

theorem cacheOk_updateStatus (mc : MarketCache) (tk status : String)
    (h : cacheOk mc) :
    cacheOk (updateStatus mc tk status) := by
  intro t s hlk
  unfold updateStatus at hlk
  rcases hex : alLookup mc.cache tk with _ | state
  · simp only [hex] at hlk
    exact h t s hlk
  · simp only [hex] at hlk
    rw [alLookup_alUpdate] at hlk
    by_cases htt : tk = t
    · rw [if_pos htt] at hlk
      injection hlk with hs2
      subst hs2
      exact h tk state hex
    · rw [if_neg htt] at hlk
      exact h t s hlk

/-- C3 (amended): the derived-field identities `yes_ask = 100 − no_bid`,
`no_ask = 100 − yes_bid`, `spread = yes_ask − yes_bid` and
`midpoint = (yes_bid + yes_ask)/2` are preserved by every cache write —
`upsert_from_discovery`, `apply_orderbook_delta`, `append_trade`,
`update_status` unconditionally, and `upsert_from_ticker` whenever the
ticker message does not carry an explicit `yes_ask` field (when it does,
that value is stored verbatim and the identities can break). -/
theorem cache_write_preserves_derived_invariants
    (mc : MarketCache) (m : TickerMsg) (d : DiscoveryData) (dm : DeltaMsg)
    (tm : TradeMsg) (tk status : String)
    (h : cacheOk mc) :
    (m.yes_ask = none → cacheOk (upsertFromTicker mc m))
    ∧ cacheOk (upsertFromDiscovery mc d)
    ∧ cacheOk (applyOrderbookDelta mc dm)
    ∧ cacheOk (appendTrade mc tm)
    ∧ cacheOk (updateStatus mc tk status) :=
  ⟨fun hya => cacheOk_upsertFromTicker mc m h hya,
   cacheOk_upsertFromDiscovery mc d h,
   cacheOk_applyOrderbookDelta mc dm h,
   cacheOk_appendTrade mc tm h,
   cacheOk_updateStatus mc tk status h⟩

/-- Witness for the amended C3: the invariants hold on the market written
by a concrete ticker update without a `yes_ask` field, starting from the
empty cache. -/
theorem cache_write_preserves_derived_invariants_witness :
    cacheOk (upsertFromTicker ⟨[], false⟩
      { market_ticker := some "T1", yes_bid := some 30, no_bid := some 60,
        yes_ask := none, last_price := none, volume := none,
        open_interest := none, event_ticker := none, series_ticker := none,
        status := none, ts := none }) :=
  (cache_write_preserves_derived_invariants ⟨[], false⟩
    { market_ticker := some "T1", yes_bid := some 30, no_bid := some 60,
      yes_ask := none, last_price := none, volume := none,
      open_interest := none, event_ticker := none, series_ticker := none,
      status := none, ts := none }
    { ticker := none, yes_bid := none, no_bid := none, event_ticker := none,
      series_ticker := none, status := none, last_price := none,
      volume := none, open_interest := none }
    { market_ticker := none, seq := none, yes := [], no := [] }
    { market_ticker := none, yes_price := none, count := none,
      taker_side := none, ts := none }
    "T1" "open"
    (fun _ _ hs => Option.noConfusion hs)).1 rfl

/-- C3 (counterexample): a ticker message that carries its own `yes_ask`
(35) inconsistent with `no_bid` (80) is stored verbatim, so after the
write the cached market violates `yes_ask = 100 − no_bid`. -/
theorem upsertFromTicker_explicit_yes_ask_breaks_invariant :
    ¬ cacheOk (upsertFromTicker ⟨[], false⟩
        { market_ticker := some "T", yes_bid := some 10, no_bid := some 80,
          yes_ask := some 35, last_price := none, volume := none,
          open_interest := none, event_ticker := none, series_ticker := none,
          status := none, ts := none }) := by
  intro h
  rcases hlk : alLookup (upsertFromTicker ⟨[], false⟩
      { market_ticker := some "T", yes_bid := some 10, no_bid := some 80,
        yes_ask := some 35, last_price := none, volume := none,
        open_interest := none, event_ticker := none, series_ticker := none,
        status := none, ts := none }).cache "T" with _ | s
  · exact absurd hlk (by decide)
  · have h1 := (h "T" s hlk).1
    have h2 : (some s).map (fun x => (x.yes_ask, x.no_bid))
        = some ((35 : Int), (80 : Int)) := by
      rw [← hlk]
      decide
    simp only [Option.map_some', Option.some.injEq, Prod.mk.injEq] at h2
    rw [h2.1, h2.2] at h1
    omega

end Polly
